import Mathlib

/-!
Shallow embedding of pysmt/solvers/solver.py (classes Solver,
IncrementalTrackingSolver, SolverOptions) and proofs about the claims of
the specification.

Modelling conventions:
* A Python method that may raise is embedded as a function returning
  PyResult, which carries either a returned value or a raised exception;
  in both cases the (mutated-in-place) object state is threaded, because a
  Python exception leaves the object in whatever state the method reached.
* The abstract backend proxy methods (_push, _pop, _add_assertion, _solve,
  _reset_assertions, _exit) raise NotImplementedError in the source and are
  supplied by a concrete subclass; here each public method takes the proxy
  behaviour for the calls it makes as an explicit function parameter, so
  theorems quantify over every possible backend.
* Python lists are Lean lists; list.append adds at the right end,
  list.pop() removes from the right end, l[0:point] is List.take point.
* Formulas, environments and logics are opaque to this file (the spec
  declares them external collaborators), so they are type parameters.
-/

namespace PySMT

/-- The Python exception classes that appear in pysmt/solvers/solver.py.
valueError is raised by Solver.__init__ for a missing logic (the spec's
error taxonomy calls it InvalidConfiguration); indexError is raised by
list.pop() on an empty backtrack-point stack (the spec calls this
StackUnderflow); solverReturnedUnknownResult is
SolverReturnedUnknownResultError; backendError stands for any other
exception a backend proxy may raise. -/
inductive PyError where
  | valueError
  | notImplementedError
  | indexError
  | solverReturnedUnknownResult
  | backendError
deriving DecidableEq, Repr

/-- Outcome of a Python method call on an object of state type sigma:
either a returned value together with the state of the object after the
call, or a raised exception together with the state the object was left
in when the exception propagated. -/
inductive PyResult (alpha : Type u) (sigma : Type v) where
  | ok (v : alpha) (s : sigma)
  | exn (e : PyError) (s : sigma)
deriving DecidableEq, Repr

/-- The object state after the call, whether it returned or raised. -/
def PyResult.state : PyResult alpha sigma → sigma
  | .ok _ s => s
  | .exn _ s => s

/-- A Python value stored in a SolverOptions attribute: a boolean, None,
or an unsat-cores-mode enumeration value (left abstract as a number). -/
inductive OptVal where
  | boolV (b : Bool)
  | noneV
  | enumV (n : Nat)
deriving DecidableEq, Repr

/-- SolverOptions.__init__(self, generate_models=True,
unsat_cores_mode=None): a record with those two attributes and those two
defaults. -/
structure SolverOptions where
  generate_models : OptVal := .boolV true
  unsat_cores_mode : OptVal := .noneV
deriving DecidableEq, Repr

/-- Solver.get_default_options(logic=None, user_options=None): builds a
fresh SolverOptions and, for each key in the whitelist
["generate_models", "unsat_cores_mode"], copies the user-supplied value
if the key is present in the user mapping.  The user mapping is embedded
as an association list with Python-dict lookup (first binding wins). -/
def get_default_options (logic : Option L)
    (user_options : Option (List (String × OptVal))) : SolverOptions :=
  let res : SolverOptions := {}
  match user_options with
  | none => res
  | some uo =>
    let res := match uo.lookup "generate_models" with
      | some v => { res with generate_models := v }
      | none => res
    let res := match uo.lookup "unsat_cores_mode" with
      | some v => { res with unsat_cores_mode := v }
      | none => res
    res

/-- The attributes Solver.__init__ sets on every session: environment,
pending_pop, logic, options and _destroyed (written destroyed here).
exitCalls is not a Python attribute: it instruments the number of times
the backend release proxy _exit has actually been invoked, so that
at-most-once release is expressible. -/
structure SolverState (Env L : Type) where
  environment : Env
  pending_pop : Bool
  logic : L
  options : SolverOptions
  destroyed : Bool
  exitCalls : Nat
deriving DecidableEq, Repr

namespace Solver

/-- The state Solver.__init__ establishes once the logic check passed. -/
def mkState (env : Env) (logic : L)
    (user_options : Option (List (String × OptVal))) : SolverState Env L :=
  { environment := env
    pending_pop := false
    logic := logic
    options := get_default_options (some logic) user_options
    destroyed := false
    exitCalls := 0 }

/-- Solver.__init__(environment, logic, user_options=None): raises
ValueError when logic is None, before any attribute is assigned;
otherwise returns the freshly initialised session state. -/
def init (env : Env) (logic : Option L)
    (user_options : Option (List (String × OptVal))) :
    Except PyError (SolverState Env L) :=
  match logic with
  | none => .error .valueError
  | some l => .ok (mkState env l user_options)

/-- Solver.exit(): if not self._destroyed: self._exit(); self._destroyed
= True.  Invoking the backend release proxy _exit is recorded by
incrementing exitCalls (the proxy is assumed to succeed). -/
def exit (s : SolverState Env L) : SolverState Env L :=
  if s.destroyed then s
  else { s with destroyed := true, exitCalls := s.exitCalls + 1 }

/-- Solver.__exit__(exc_type, exc_val, exc_tb): the context-manager exit
hook simply calls self.exit(). -/
def exitContext (s : SolverState Env L) : SolverState Env L :=
  Solver.exit s

end Solver

/-- The result of the last call to solve() as recorded in _last_result:
the boolean the backend returned, or the string "unknown". -/
inductive LastResult where
  | result (b : Bool)
  | unknown
deriving DecidableEq, Repr

/-- IncrementalTrackingSolver.__init__ adds to the Solver attributes:
_last_result, _last_command, _assertion_stack and _backtrack_points
(written without the leading underscore here).  tau is the type of the
tracked-assertion tokens returned by the backend proxy _add_assertion. -/
structure ITSState (Env L tau : Type) extends SolverState Env L where
  last_result : Option LastResult
  last_command : Option String
  assertion_stack : List tau
  backtrack_points : List Nat
deriving DecidableEq, Repr

namespace IncrementalTrackingSolver

/-- IncrementalTrackingSolver.__init__: Solver.__init__ plus the four
tracking attributes initialised to None/None/[]/[]. -/
def init (env : Env) (logic : Option L)
    (user_options : Option (List (String × OptVal))) :
    Except PyError (ITSState Env L tau) :=
  match Solver.init env logic user_options with
  | .error e => .error e
  | .ok base =>
    .ok { toSolverState := base
          last_result := none
          last_command := none
          assertion_stack := []
          backtrack_points := [] }

/-- IncrementalTrackingSolver.push(levels=1): calls the backend proxy
self._push(levels) first; only on success captures point =
len(self._assertion_stack) and appends point to _backtrack_points once
per level, then sets _last_command = "push".  bpush is the proxy. -/
def push (bpush : Nat → Except PyError Unit) (s : ITSState Env L tau)
    (levels : Nat) : PyResult Unit (ITSState Env L tau) :=
  match bpush levels with
  | .error e => .exn e s
  | .ok _ =>
    let point := s.assertion_stack.length
    .ok () { s with
              backtrack_points :=
                s.backtrack_points ++ List.replicate levels point
              last_command := some "push" }

/-- The loop body of IncrementalTrackingSolver.pop: for each of levels
iterations, point = self._backtrack_points.pop() (raising IndexError on
an empty list, with the object left as mutated so far) and
self._assertion_stack = self._assertion_stack[0:point]. -/
def popLoop (s : ITSState Env L tau) : Nat → PyResult Unit (ITSState Env L tau)
  | 0 => .ok () s
  | n + 1 =>
    match s.backtrack_points.getLast? with
    | none => .exn .indexError s
    | some point =>
      popLoop
        { s with
          backtrack_points := s.backtrack_points.dropLast
          assertion_stack := s.assertion_stack.take point } n

/-- IncrementalTrackingSolver.pop(levels=1): calls the backend proxy
self._pop(levels) first; only on success runs the truncation loop, and
only when the whole loop succeeds sets _last_command = "pop". -/
def pop (bpop : Nat → Except PyError Unit) (s : ITSState Env L tau)
    (levels : Nat) : PyResult Unit (ITSState Env L tau) :=
  match bpop levels with
  | .error e => .exn e s
  | .ok _ =>
    match popLoop s levels with
    | .ok _ s1 => .ok () { s1 with last_command := some "pop" }
    | .exn e s1 => .exn e s1

/-- IncrementalTrackingSolver.add_assertion(formula, named=None):
tracked = self._add_assertion(formula, named) (badd is the proxy, which
returns the backend-chosen token), append tracked to _assertion_stack,
set _last_command = "assert". -/
def add_assertion (badd : F → Option String → Except PyError tau)
    (s : ITSState Env L tau) (formula : F) (named : Option String) :
    PyResult Unit (ITSState Env L tau) :=
  match badd formula named with
  | .error e => .exn e s
  | .ok tracked =>
    .ok () { s with
              assertion_stack := s.assertion_stack ++ [tracked]
              last_command := some "assert" }

/-- IncrementalTrackingSolver.solve(assumptions=None): try: res =
self._solve(assumptions); self._last_result = res; return res; except
SolverReturnedUnknownResultError: self._last_result = "unknown"; raise;
finally: self._last_command = "solve".  bsolve is the proxy. -/
def solve (bsolve : Option (List F) → Except PyError Bool)
    (s : ITSState Env L tau) (assumptions : Option (List F)) :
    PyResult Bool (ITSState Env L tau) :=
  match bsolve assumptions with
  | .ok res =>
    .ok res { s with
               last_result := some (.result res)
               last_command := some "solve" }
  | .error .solverReturnedUnknownResult =>
    .exn .solverReturnedUnknownResult
      { s with
        last_result := some .unknown
        last_command := some "solve" }
  | .error e => .exn e { s with last_command := some "solve" }

/-- IncrementalTrackingSolver.reset_assertions(): calls the backend
proxy self._reset_assertions() and sets _last_command =
"reset_assertions".  Note that the source touches neither
_assertion_stack nor _backtrack_points here.  breset is the proxy
outcome. -/
def reset_assertions (breset : Except PyError Unit)
    (s : ITSState Env L tau) : PyResult Unit (ITSState Env L tau) :=
  match breset with
  | .error e => .exn e s
  | .ok _ => .ok () { s with last_command := some "reset_assertions" }

/-- Solver.is_sat(formula) as executed on an IncrementalTrackingSolver
(push, add_assertion and solve dispatch to the tracking overrides):
try self.push(1), catching exactly NotImplementedError; on that signal
fall back to res = self.solve([formula]); otherwise
self.add_assertion(formula); res = self.solve(); self.pending_pop =
True; return res.  The source's assert that formula belongs to the
formula manager concerns the external environment collaborator and is
not modelled.  bpush, badd, bsolve are the backend proxies used by the
calls this method makes. -/
def is_sat (bpush : Nat → Except PyError Unit)
    (badd : F → Option String → Except PyError tau)
    (bsolve : Option (List F) → Except PyError Bool)
    (s : ITSState Env L tau) (formula : F) :
    PyResult Bool (ITSState Env L tau) :=
  match push bpush s 1 with
  | .exn .notImplementedError s1 => solve bsolve s1 (some [formula])
  | .exn e s1 => .exn e s1
  | .ok _ s1 =>
    match add_assertion badd s1 formula none with
    | .exn e s2 => .exn e s2
    | .ok _ s2 =>
      match solve bsolve s2 none with
      | .exn e s3 => .exn e s3
      | .ok res s3 => .ok res { s3 with pending_pop := true }

/-- One tracking-layer operation together with the behaviour of the
backend proxy call it makes.  Claims about operation sequences quantify
over lists of these: pushOp/popOp/addOp/resetOp carry successful proxy
outcomes (addOp carries the token the proxy returned), solveOp carries
an arbitrary proxy outcome since solve's bookkeeping runs on failure
too. -/
inductive TrackOp (F tau : Type) where
  | pushOp (levels : Nat)
  | popOp (levels : Nat)
  | addOp (formula : F) (tracked : tau)
  | solveOp (assumptions : Option (List F)) (outcome : Except PyError Bool)
  | resetOp

/-- Execute one tracking-layer operation; a raised exception leaves the
session in the mutated state it had reached (a caller may catch the
exception and continue on that state). -/
def runOp (s : ITSState Env L tau) : TrackOp F tau → ITSState Env L tau
  | .pushOp k => (push (fun _ => .ok ()) s k).state
  | .popOp k => (pop (fun _ => .ok ()) s k).state
  | .addOp f t => (add_assertion (fun _ _ => .ok t) s f none).state
  | .solveOp asm out => (solve (fun _ => out) s asm).state
  | .resetOp => (reset_assertions (.ok ()) s).state

/-- Execute a sequence of tracking-layer operations in order. -/
def run (s : ITSState Env L tau) (ops : List (TrackOp F tau)) :
    ITSState Env L tau :=
  ops.foldl runOp s

/-- The stack-discipline invariant: the backtrack-point stack is a
non-decreasing sequence of numbers, each at most the current
assertion-stack length. -/
def StackInv (s : ITSState Env L tau) : Prop :=
  s.backtrack_points.Pairwise (· ≤ ·) ∧
  ∀ p ∈ s.backtrack_points, p ≤ s.assertion_stack.length

/-- Add a sequence of assertions whose backend proxy returns the listed
tokens (formulas abstracted to Unit). -/
def addAll (s : ITSState Env L tau) : List tau → ITSState Env L tau
  | [] => s
  | t :: ts =>
    addAll ((add_assertion (fun _ _ => Except.ok t) s () none).state) ts

end IncrementalTrackingSolver

/-- A backend whose _push proxy always succeeds. -/
def okPushProxy : Nat → Except PyError Unit := fun _ => .ok ()

/-- A backend whose _push proxy raises NotImplementedError (no push
support). -/
def noPushProxy : Nat → Except PyError Unit :=
  fun _ => .error .notImplementedError

/-- A backend whose _pop proxy always succeeds. -/
def okPopProxy : Nat → Except PyError Unit := fun _ => .ok ()

/-- A backend _add_assertion proxy whose token is the asserted formula
itself (formulas and tokens both Nat). -/
def idAddProxy : Nat → Option String → Except PyError Nat :=
  fun f _ => .ok f

/-- A backend _solve proxy that always returns the boolean b. -/
def constSolveProxy (b : Bool) : Option (List Nat) → Except PyError Bool :=
  fun _ => .ok b

/-- A backend _solve proxy that always raises
SolverReturnedUnknownResultError. -/
def unknownSolveProxy : Option (List Nat) → Except PyError Bool :=
  fun _ => .error .solverReturnedUnknownResult

/-- The base-session state Solver.__init__ produces for a trivial
environment and logic with no user options. -/
def sampleBase : SolverState Unit Unit :=
  { environment := ()
    pending_pop := false
    logic := ()
    options := {}
    destroyed := false
    exitCalls := 0 }

/-- The tracking-session state IncrementalTrackingSolver.__init__
produces for a trivial environment and logic with no user options. -/
def sampleITS : ITSState Unit Unit Nat :=
  { toSolverState := sampleBase
    last_result := none
    last_command := none
    assertion_stack := []
    backtrack_points := [] }

/-- A session with one open push level recorded at depth 0 and one
tracked assertion (token 7) added after the push: assertion stack [7],
backtrack points [0]. -/
def oneOpenLevel : ITSState Unit Unit Nat :=
  { sampleITS with assertion_stack := [7], backtrack_points := [0] }

/-- A session with a single tracked assertion (token 5) and no open push
level. -/
def oneAsserted : ITSState Unit Unit Nat :=
  { sampleITS with assertion_stack := [5], last_command := some "assert" }

/-- The session state after is_sat(10) on a fresh session with a
push-supporting backend whose tokens are the formulas themselves and
whose _solve always returns True. -/
def afterIsSat : ITSState Unit Unit Nat :=
  { sampleITS with
    pending_pop := true
    last_result := some (.result true)
    last_command := some "solve"
    assertion_stack := [10]
    backtrack_points := [0] }

/-- The session state after a further is_sat(20) on afterIsSat with the
same backend. -/
def afterSecondIsSat : ITSState Unit Unit Nat :=
  { sampleITS with
    pending_pop := true
    last_result := some (.result true)
    last_command := some "solve"
    assertion_stack := [10, 20]
    backtrack_points := [0, 1] }

theorem foldr_min_le (l : List Nat) (i : Nat) : l.foldr min i ≤ i := by
  induction l with
  | nil => exact Nat.le_refl i
  | cons a l ih => exact le_trans (Nat.min_le_right a _) ih

namespace IncrementalTrackingSolver

/-- When more levels are requested than there are recorded backtrack
points, the truncation loop consumes the whole backtrack-point stack,
truncating the assertion stack to each popped point in turn (net
effect: truncation to the smallest recorded point), and then raises
IndexError from the session state reached at that moment. -/
theorem popLoop_underflow {Env L tau : Type} (n : Nat) :
    ∀ s : ITSState Env L tau, s.backtrack_points.length < n →
    popLoop s n = .exn .indexError
      { s with backtrack_points := []
               assertion_stack := s.assertion_stack.take
                 (s.backtrack_points.foldr min s.assertion_stack.length) } := by
  induction n with
  | zero => exact fun s h => absurd h (Nat.not_lt_zero _)
  | succ n ih =>
    rintro ⟨base, lr, lc, stack, bp⟩ h
    rcases List.eq_nil_or_concat bp with rfl | ⟨l, p, rfl⟩
    · simp [popLoop, List.take_length]
    · simp only [List.concat_eq_append] at h ⊢
      rw [popLoop]
      simp only [List.getLast?_concat, List.dropLast_concat]
      rw [ih _ (by simp only [List.length_append, List.length_cons,
            List.length_nil] at h ⊢; omega)]
      simp only [List.foldr_append, List.foldr_cons, List.foldr_nil,
        List.length_take, List.take_take]
      have hM : List.foldr min (min p stack.length) l ≤ p :=
        le_trans (foldr_min_le l _) (Nat.min_le_left p stack.length)
      rw [Nat.min_eq_left hM]

/-- C1, counterexample: on a session with one open push level recorded
at depth 0 and one tracked assertion, pop(2) raises the underflow error
(IndexError, the spec's StackUnderflow) but does NOT leave the assertion
stack as it was: the loop truncates once before the underflow is hit, so
the stack shrinks from [7] to []. -/
theorem pop_underflow_modifies_stack :
    pop (fun _ => .ok ()) oneOpenLevel 2 = .exn .indexError
      { oneOpenLevel with backtrack_points := [], assertion_stack := [] } ∧
    (pop (fun _ => .ok ()) oneOpenLevel 2).state.assertion_stack ≠
      oneOpenLevel.assertion_stack := by
  decide

/-- C1, amended: pop(levels) with levels exceeding the number of open
push levels (and a succeeding backend _pop proxy) fails with the
underflow error (IndexError, which the spec's taxonomy names
StackUnderflow) and does not update last_command, but the assertion
stack is NOT left unmodified in general: each open level is popped and
the assertion stack is truncated to its recorded point before the
underflow is raised, so the stack ends truncated to the smallest
recorded backtrack point.  Only when no push level is open at all is the
assertion stack left exactly as it was. -/
theorem pop_underflow_partial_truncation {Env L tau : Type}
    (s : ITSState Env L tau) (levels : Nat)
    (h : s.backtrack_points.length < levels) :
    pop (fun _ => .ok ()) s levels = .exn .indexError
      { s with backtrack_points := []
               assertion_stack := s.assertion_stack.take
                 (s.backtrack_points.foldr min s.assertion_stack.length) } ∧
    (s.backtrack_points = [] →
      pop (fun _ => .ok ()) s levels = .exn .indexError s) := by
  obtain ⟨base, lr, lc, stack, bp⟩ := s
  have hu := @popLoop_underflow Env L tau levels ⟨base, lr, lc, stack, bp⟩ h
  refine ⟨by simp only [pop, hu], ?_⟩
  intro hbp
  simp only at hbp
  subst hbp
  simp only [pop, hu, List.foldr_nil, List.take_length]

/-- When the backtrack-point stack ends with exactly k copies of the
current assertion-stack length, k iterations of the truncation loop
succeed, remove those k entries and leave the assertion stack as it
was. -/
theorem popLoop_replicate {Env L tau : Type} (k : Nat) :
    ∀ (s : ITSState Env L tau) (bp0 : List Nat),
    s.backtrack_points = bp0 ++ List.replicate k s.assertion_stack.length →
    popLoop s k = .ok () { s with backtrack_points := bp0 } := by
  induction k with
  | zero =>
    rintro ⟨base, lr, lc, stack, bp⟩ bp0 hbp
    simp only [List.replicate_zero, List.append_nil] at hbp
    subst hbp
    simp [popLoop]
  | succ k ih =>
    rintro ⟨base, lr, lc, stack, bp⟩ bp0 hbp
    simp only at hbp
    rw [List.replicate_succ', ← List.append_assoc] at hbp
    subst hbp
    rw [popLoop]
    simp only [List.getLast?_concat, List.dropLast_concat, List.take_length]
    exact ih ⟨base, lr, lc, stack, bp0 ++ List.replicate k stack.length⟩ bp0 rfl

/-- Asserting a list of tokens appends them, in order, to the assertion
stack and leaves the backtrack points unchanged. -/
theorem addAll_spec {Env L tau : Type} :
    ∀ (toks : List tau) (s : ITSState Env L tau),
    (addAll s toks).assertion_stack = s.assertion_stack ++ toks ∧
    (addAll s toks).backtrack_points = s.backtrack_points := by
  intro toks
  induction toks with
  | nil => intro s; simp [addAll]
  | cons t ts ih =>
    intro s
    rw [addAll]
    rcases ih ((add_assertion (fun _ _ => Except.ok t) s () none).state)
      with ⟨h1, h2⟩
    rw [h1, h2]
    simp [add_assertion, PyResult.state]

/-- C3: for every session state and every k, a push(k) immediately
followed by pop(k) with no intervening assertions (and succeeding
backend proxies) returns the assertion stack to exactly its previous
content and length, and restores the backtrack points; in particular,
after n assertions from an empty stack then push(1); pop(1), the
assertion stack is exactly those n tokens in original order. -/
theorem push_pop_roundtrip {Env L tau : Type} (s : ITSState Env L tau)
    (k : Nat) (hk : 1 ≤ k) :
    (∃ s1 s2,
      push (fun _ => .ok ()) s k = .ok () s1 ∧
      pop (fun _ => .ok ()) s1 k = .ok () s2 ∧
      s2.assertion_stack = s.assertion_stack ∧
      s2.assertion_stack.length = s.assertion_stack.length ∧
      s2.backtrack_points = s.backtrack_points) ∧
    (∀ (s0 : ITSState Env L tau) (toks : List tau),
      s0.assertion_stack = [] →
      ∃ s1 s2,
        push (fun _ => .ok ()) (addAll s0 toks) 1 = .ok () s1 ∧
        pop (fun _ => .ok ()) s1 1 = .ok () s2 ∧
        s2.assertion_stack = toks) := by
  have main : ∀ (t : ITSState Env L tau) (m : Nat),
      ∃ s1 s2,
        push (fun _ => .ok ()) t m = .ok () s1 ∧
        pop (fun _ => .ok ()) s1 m = .ok () s2 ∧
        s2.assertion_stack = t.assertion_stack ∧
        s2.backtrack_points = t.backtrack_points := by
    rintro ⟨base, lr, lc, stack, bp⟩ m
    refine ⟨⟨base, lr, some "push", stack, bp ++ List.replicate m stack.length⟩,
      ⟨base, lr, some "pop", stack, bp⟩, rfl, ?_, rfl, rfl⟩
    have hloop := popLoop_replicate m
      ⟨base, lr, some "push", stack, bp ++ List.replicate m stack.length⟩ bp rfl
    simp only [pop, hloop]
  constructor
  · obtain ⟨s1, s2, hpush, hpop, hstack, hbp⟩ := main s k
    exact ⟨s1, s2, hpush, hpop, hstack, by rw [hstack], hbp⟩
  · intro s0 toks h0
    obtain ⟨s1, s2, hpush, hpop, hstack, hbp⟩ := main (addAll s0 toks) 1
    refine ⟨s1, s2, hpush, hpop, ?_⟩
    rw [hstack, (addAll_spec toks s0).1, h0, List.nil_append]

/-- C3, witness: the round-trip theorem applied to the concrete session
oneOpenLevel with k = 1. -/
theorem push_pop_roundtrip_witness :
    1 ≤ 1 ∧
    (∃ s1 s2,
      push (fun _ => .ok ()) oneOpenLevel 1 = .ok () s1 ∧
      pop (fun _ => .ok ()) s1 1 = .ok () s2 ∧
      s2.assertion_stack = oneOpenLevel.assertion_stack ∧
      s2.assertion_stack.length = oneOpenLevel.assertion_stack.length ∧
      s2.backtrack_points = oneOpenLevel.backtrack_points) :=
  ⟨Nat.le_refl 1, (push_pop_roundtrip oneOpenLevel 1 (Nat.le_refl 1)).1⟩

/-- C1, witness: the amended theorem applied to the concrete session
oneOpenLevel with levels = 2. -/
theorem pop_underflow_partial_truncation_witness :
    oneOpenLevel.backtrack_points.length < 2 ∧
    pop (fun _ => .ok ()) oneOpenLevel 2 = .exn .indexError
      { oneOpenLevel with backtrack_points := []
                          assertion_stack := oneOpenLevel.assertion_stack.take
                            (oneOpenLevel.backtrack_points.foldr min
                              oneOpenLevel.assertion_stack.length) } :=
  ⟨by decide, (pop_underflow_partial_truncation oneOpenLevel 2 (by decide)).1⟩

theorem pairwise_le_replicate (n p : Nat) :
    (List.replicate n p).Pairwise (· ≤ ·) := by
  induction n with
  | zero => simp
  | succ n ih =>
    rw [List.replicate_succ]
    exact List.Pairwise.cons
      (fun b hb => le_of_eq (List.eq_of_mem_replicate hb).symm) ih

theorem stackInv_push {Env L tau : Type} (bpush : Nat → Except PyError Unit)
    (s : ITSState Env L tau) (k : Nat) (h : StackInv s) :
    StackInv (push bpush s k).state := by
  rcases h with ⟨h1, h2⟩
  cases hb : bpush k with
  | error e => simpa [push, hb, PyResult.state] using ⟨h1, h2⟩
  | ok u =>
    simp only [push, hb, PyResult.state]
    constructor
    · rw [List.pairwise_append]
      exact ⟨h1, pairwise_le_replicate _ _,
        fun a ha b hb2 => (List.eq_of_mem_replicate hb2) ▸ h2 a ha⟩
    · intro p hp
      rcases List.mem_append.mp hp with hp | hp
      · exact h2 p hp
      · exact le_of_eq (List.eq_of_mem_replicate hp)

theorem stackInv_popLoop {Env L tau : Type} (n : Nat) :
    ∀ s : ITSState Env L tau, StackInv s → StackInv (popLoop s n).state := by
  induction n with
  | zero => intro s h; simpa [popLoop, PyResult.state] using h
  | succ n ih =>
    rintro ⟨base, lr, lc, stack, bp⟩ ⟨h1, h2⟩
    simp only at h1 h2
    rcases List.eq_nil_or_concat bp with rfl | ⟨l, p, rfl⟩
    · simpa [popLoop, PyResult.state] using ⟨h1, h2⟩
    · simp only [List.concat_eq_append] at h1 h2 ⊢
      rw [popLoop]
      simp only [List.getLast?_concat, List.dropLast_concat]
      apply ih
      rcases List.pairwise_append.mp h1 with ⟨hl, _, hcross⟩
      refine ⟨hl, ?_⟩
      intro q hq
      have hql : q ≤ p := hcross q hq p (by simp)
      have hqs : q ≤ stack.length := h2 q (List.mem_append.mpr (Or.inl hq))
      simp only [List.length_take]
      exact le_min hql hqs

theorem stackInv_pop {Env L tau : Type} (bpop : Nat → Except PyError Unit)
    (s : ITSState Env L tau) (k : Nat) (h : StackInv s) :
    StackInv (pop bpop s k).state := by
  cases hb : bpop k with
  | error e => simpa [pop, hb, PyResult.state] using h
  | ok u =>
    have hloop := stackInv_popLoop k s h
    cases hp : popLoop s k with
    | ok v s1 =>
      rw [hp] at hloop
      simpa [pop, hb, hp, PyResult.state, StackInv] using hloop
    | exn e s1 =>
      rw [hp] at hloop
      simpa [pop, hb, hp, PyResult.state, StackInv] using hloop

theorem stackInv_add_assertion {Env L tau F : Type}
    (badd : F → Option String → Except PyError tau)
    (s : ITSState Env L tau) (f : F) (named : Option String)
    (h : StackInv s) : StackInv (add_assertion badd s f named).state := by
  rcases h with ⟨h1, h2⟩
  cases hb : badd f named with
  | error e => simpa [add_assertion, hb, PyResult.state] using ⟨h1, h2⟩
  | ok t =>
    simp only [add_assertion, hb, PyResult.state]
    refine ⟨h1, ?_⟩
    intro p hp
    have := h2 p hp
    simp only [List.length_append, List.length_cons, List.length_nil]
    omega

theorem stackInv_solve {Env L tau F : Type}
    (bsolve : Option (List F) → Except PyError Bool)
    (s : ITSState Env L tau) (asm : Option (List F)) (h : StackInv s) :
    StackInv (solve bsolve s asm).state := by
  unfold solve
  split <;> simpa [PyResult.state, StackInv] using h

theorem stackInv_reset_assertions {Env L tau : Type}
    (breset : Except PyError Unit) (s : ITSState Env L tau)
    (h : StackInv s) : StackInv (reset_assertions breset s).state := by
  unfold reset_assertions
  split <;> simpa [PyResult.state, StackInv] using h

theorem stackInv_runOp {Env L tau F : Type} (s : ITSState Env L tau)
    (op : TrackOp F tau) (h : StackInv s) : StackInv (runOp s op) := by
  cases op with
  | pushOp k => exact stackInv_push _ s k h
  | popOp k => exact stackInv_pop _ s k h
  | addOp f t => exact stackInv_add_assertion _ s f none h
  | solveOp asm out => exact stackInv_solve _ s asm h
  | resetOp => exact stackInv_reset_assertions _ s h

theorem stackInv_run {Env L tau F : Type} (ops : List (TrackOp F tau)) :
    ∀ s : ITSState Env L tau, StackInv s → StackInv (run s ops) := by
  induction ops with
  | nil => intro s h; simpa [run] using h
  | cons op ops ih =>
    intro s h
    rw [run, List.foldl_cons]
    exact ih (runOp s op) (stackInv_runOp s op h)

theorem popLoop_state_length_le {Env L tau : Type} (n : Nat) :
    ∀ s : ITSState Env L tau,
    (popLoop s n).state.assertion_stack.length ≤
      s.assertion_stack.length := by
  induction n with
  | zero => intro s; simp [popLoop, PyResult.state]
  | succ n ih =>
    intro s
    rw [popLoop]
    cases hbp : s.backtrack_points.getLast? with
    | none => simp [PyResult.state]
    | some p =>
      refine le_trans (ih _) ?_
      simp only [List.length_take]
      exact min_le_right _ _

/-- C10: starting from a freshly constructed IncrementalTrackingSolver,
after any sequence of push/pop/add_assertion/solve/reset_assertions
operations whose backend proxy calls succeed, the backtrack-point stack
is a non-decreasing sequence of numbers each at most the current
assertion-stack length; and every successful pop only ever truncates the
assertion stack, never lengthens it. -/
theorem backtrack_points_invariant {Env L tau F : Type} (env : Env)
    (lg : L) (uo : Option (List (String × OptVal)))
    (s0 : ITSState Env L tau) (ops : List (TrackOp F tau))
    (hinit : init env (some lg) uo = .ok s0) :
    StackInv (run s0 ops) ∧
    ∀ (s : ITSState Env L tau) (k : Nat) (s1 : ITSState Env L tau),
      pop (fun _ => .ok ()) s k = .ok () s1 →
      s1.assertion_stack.length ≤ s.assertion_stack.length := by
  constructor
  · apply stackInv_run
    simp only [init, Solver.init] at hinit
    cases hinit
    exact ⟨List.Pairwise.nil, by simp⟩
  · intro s k s1 hpop
    simp only [pop] at hpop
    cases hp : popLoop s k with
    | ok v st =>
      rw [hp] at hpop
      have hlen := popLoop_state_length_le k s
      rw [hp] at hlen
      cases hpop
      simpa [PyResult.state] using hlen
    | exn e st => rw [hp] at hpop; cases hpop

/-- C10, witness: the invariant theorem applied to a concrete fresh
session and a concrete operation sequence, and the pop-shrinks part
applied to a concrete successful pop. -/
theorem backtrack_points_invariant_witness :
    StackInv (run sampleITS
      [TrackOp.pushOp 1, TrackOp.addOp (3 : Nat) (3 : Nat),
        TrackOp.popOp 1]) ∧
    ({ oneOpenLevel with assertion_stack := ([] : List Nat)
                         backtrack_points := []
                         last_command :=
                           some "pop" }).assertion_stack.length ≤
      oneOpenLevel.assertion_stack.length := by
  have h := backtrack_points_invariant () ()
    (none : Option (List (String × OptVal))) sampleITS
    [TrackOp.pushOp 1, TrackOp.addOp (3 : Nat) (3 : Nat), TrackOp.popOp 1]
    rfl
  exact ⟨h.1, h.2 oneOpenLevel 1
    { oneOpenLevel with assertion_stack := [], backtrack_points := []
                        last_command := some "pop" } (by decide)⟩

/-- solve never modifies the assertion stack or the backtrack points,
whatever the backend outcome: only last_result and last_command
change. -/
theorem solve_state_stacks {Env L tau F : Type}
    (bsolve : Option (List F) → Except PyError Bool)
    (s : ITSState Env L tau) (asm : Option (List F)) :
    (solve bsolve s asm).state.assertion_stack = s.assertion_stack ∧
    (solve bsolve s asm).state.backtrack_points = s.backtrack_points := by
  unfold solve
  split <;> simp [PyResult.state]

/-- C4: on every call, solve sets last_command to "solve" whether the
backend proxy _solve returns or raises (the finally block); and when the
proxy raises the unknown-result failure, the failure propagates with
last_result already set to "unknown", not any stale prior value. -/
theorem solve_bookkeeping {Env L tau F : Type}
    (bsolve : Option (List F) → Except PyError Bool)
    (s : ITSState Env L tau) (asm : Option (List F)) :
    (solve bsolve s asm).state.last_command = some "solve" ∧
    (bsolve asm = .error .solverReturnedUnknownResult →
      solve bsolve s asm = .exn .solverReturnedUnknownResult
        { s with last_result := some .unknown
                 last_command := some "solve" }) := by
  constructor
  · unfold solve
    split <;> simp [PyResult.state]
  · intro hb
    simp [solve, hb]

/-- C4, witness: solve with a backend that raises the unknown-result
failure, on the fresh sample session. -/
theorem solve_bookkeeping_witness :
    (solve unknownSolveProxy sampleITS none).state.last_command =
      some "solve" ∧
    solve unknownSolveProxy sampleITS none =
      .exn .solverReturnedUnknownResult
        { sampleITS with last_result := some .unknown
                         last_command := some "solve" } :=
  ⟨(solve_bookkeeping unknownSolveProxy sampleITS none).1,
   (solve_bookkeeping unknownSolveProxy sampleITS none).2 rfl⟩

/-- C5: is_sat first attempts push(); if the backend signals push is
unsupported (NotImplementedError), it returns exactly the result of
solve([formula]) with no growth of the assertion stack or the backtrack
points; otherwise it asserts the formula, calls solve(), marks
pending_pop without executing any pop (the pushed backtrack point is
still present afterwards), and returns the result of solve. -/
theorem is_sat_algorithm {Env L tau F : Type}
    (badd : F → Option String → Except PyError tau)
    (bsolve : Option (List F) → Except PyError Bool)
    (s : ITSState Env L tau) (f : F) (tok : tau) (v : Bool) :
    (is_sat (fun _ => .error .notImplementedError) badd bsolve s f =
        solve bsolve s (some [f]) ∧
      (is_sat (fun _ => .error .notImplementedError) badd bsolve s
          f).state.assertion_stack = s.assertion_stack ∧
      (is_sat (fun _ => .error .notImplementedError) badd bsolve s
          f).state.backtrack_points = s.backtrack_points) ∧
    (badd f none = .ok tok → bsolve none = .ok v →
      is_sat (fun _ => .ok ()) badd bsolve s f = .ok v
        { s with pending_pop := true
                 last_result := some (.result v)
                 last_command := some "solve"
                 assertion_stack := s.assertion_stack ++ [tok]
                 backtrack_points :=
                   s.backtrack_points ++ [s.assertion_stack.length] }) := by
  have heq : is_sat (fun _ => .error .notImplementedError) badd bsolve s f =
      solve bsolve s (some [f]) := rfl
  refine ⟨⟨heq, ?_, ?_⟩, ?_⟩
  · rw [heq]; exact (solve_state_stacks bsolve s (some [f])).1
  · rw [heq]; exact (solve_state_stacks bsolve s (some [f])).2
  · intro h1 h2
    simp only [is_sat, push, add_assertion, solve, h1, h2]
    rfl

/-- C5, witness: the push-supported path on a fresh session with the
identity-token backend whose _solve returns True. -/
theorem is_sat_algorithm_witness :
    is_sat (fun _ => .ok ()) idAddProxy (constSolveProxy true) sampleITS
        10 = .ok true
      { sampleITS with
        pending_pop := true
        last_result := some (.result true)
        last_command := some "solve"
        assertion_stack := sampleITS.assertion_stack ++ [10]
        backtrack_points :=
          sampleITS.backtrack_points ++
            [sampleITS.assertion_stack.length] } :=
  (is_sat_algorithm idAddProxy (constSolveProxy true) sampleITS 10 10
    true).2 rfl rfl

/-- On the push-supported path, a successful is_sat returns a state
whose assertion stack is the old stack with the formula's token appended
at the end. -/
theorem is_sat_push_path_stack {Env L tau F : Type}
    (badd : F → Option String → Except PyError tau)
    (bsolve : Option (List F) → Except PyError Bool)
    (s : ITSState Env L tau) (f : F) (v : Bool) (s1 : ITSState Env L tau)
    (h : is_sat (fun _ => .ok ()) badd bsolve s f = .ok v s1) :
    ∃ t, badd f none = .ok t ∧
      s1.assertion_stack = s.assertion_stack ++ [t] := by
  cases hb : badd f none with
  | error e =>
    exfalso
    simp [is_sat, push, add_assertion, hb] at h
  | ok t =>
    cases hs : bsolve none with
    | ok w =>
      simp only [is_sat, push, add_assertion, solve, hb, hs,
        PyResult.ok.injEq] at h
      refine ⟨t, rfl, ?_⟩
      rw [← h.2]
    | error e =>
      exfalso
      cases e <;> simp [is_sat, push, add_assertion, solve, hb, hs] at h

/-- C2, counterexample: with a push-supporting backend (tokens are the
formulas, _solve always True), is_sat(10) on a fresh session leaves
token 10 on the assertion stack (pending_pop is marked but nothing ever
discharges it in this code), so the assertion stack at the moment the
second is_sat(20) calls solve — i.e. after its push and add_assertion
steps, which is exactly what that solve observes since solve never
modifies the stack (solve_state_stacks) — is [10, 20], containing the
first formula.  This refutes the claim that the second call evaluates
against an assertion set not containing the first formula. -/
theorem is_sat_leaks_counterexample :
    (is_sat (fun _ => .ok ()) idAddProxy (constSolveProxy true) sampleITS
        10).state.assertion_stack = [10] ∧
    (add_assertion idAddProxy
        (push (fun _ => .ok ())
          (is_sat (fun _ => .ok ()) idAddProxy (constSolveProxy true)
            sampleITS 10).state 1).state
        20 none).state.assertion_stack = [10, 20] ∧
    10 ∈ (is_sat (fun _ => .ok ()) idAddProxy (constSolveProxy true)
        (is_sat (fun _ => .ok ()) idAddProxy (constSolveProxy true)
          sampleITS 10).state 20).state.assertion_stack := by
  decide

/-- C2, amended: on the assumption-based fallback path (backend without
push support) is_sat leaves the assertion stack unchanged, so no leak
occurs there; but on the push-based path a successful is_sat(f) leaves
f's token on the assertion stack — pending_pop is marked and never
discharged by any operation in this code — and a subsequent successful
is_sat(g) still has f's token in its assertion set, so the two paths are
not observably equivalent and the first formula IS visible during the
second call. -/
theorem is_sat_pending_pop_leak {Env L tau F : Type}
    (s : ITSState Env L tau) (f g : F)
    (badd1 badd2 : F → Option String → Except PyError tau)
    (bs1 bs2 : Option (List F) → Except PyError Bool)
    (v1 : Bool) (s1 : ITSState Env L tau) :
    ((is_sat (fun _ => .error .notImplementedError) badd1 bs1 s
        f).state.assertion_stack = s.assertion_stack) ∧
    (is_sat (fun _ => .ok ()) badd1 bs1 s f = .ok v1 s1 →
      (∃ t, badd1 f none = .ok t ∧ t ∈ s1.assertion_stack) ∧
      ∀ (v2 : Bool) (s2 : ITSState Env L tau),
        is_sat (fun _ => .ok ()) badd2 bs2 s1 g = .ok v2 s2 →
        ∀ t, badd1 f none = .ok t → t ∈ s2.assertion_stack) := by
  constructor
  · have heq : is_sat (fun _ => .error .notImplementedError) badd1 bs1 s f =
        solve bs1 s (some [f]) := rfl
    rw [heq]
    exact (solve_state_stacks bs1 s (some [f])).1
  · intro h
    obtain ⟨t, hbt, hstack⟩ := is_sat_push_path_stack badd1 bs1 s f v1 s1 h
    have hmem : t ∈ s1.assertion_stack := by
      rw [hstack]; exact List.mem_append.mpr (Or.inr (by simp))
    refine ⟨⟨t, hbt, hmem⟩, ?_⟩
    intro v2 s2 h2 t2 hbt2
    have ht2 : t2 = t := by
      rw [hbt] at hbt2
      injection hbt2 with hx
      exact hx.symm
    subst ht2
    obtain ⟨u, _, hstack2⟩ := is_sat_push_path_stack badd2 bs2 s1 g v2 s2 h2
    rw [hstack2]
    exact List.mem_append.mpr (Or.inl hmem)

/-- C2, witness: the amended theorem applied to the concrete
double-is_sat scenario of the counterexample. -/
theorem is_sat_pending_pop_leak_witness :
    (∃ t, idAddProxy 10 none = .ok t ∧ t ∈ afterIsSat.assertion_stack) ∧
    10 ∈ afterSecondIsSat.assertion_stack := by
  have T := is_sat_pending_pop_leak sampleITS (10 : Nat) 20 idAddProxy
    idAddProxy (constSolveProxy true) (constSolveProxy true) true
    afterIsSat
  have h1 : is_sat (fun _ => .ok ()) idAddProxy (constSolveProxy true)
      sampleITS 10 = .ok true afterIsSat := by decide
  have h2 : is_sat (fun _ => .ok ()) idAddProxy (constSolveProxy true)
      afterIsSat 20 = .ok true afterSecondIsSat := by decide
  exact ⟨(T.2 h1).1, (T.2 h1).2 true afterSecondIsSat h2 10 rfl⟩

/-- C6: at this layer reset_assertions only invokes the backend proxy
and sets last_command to "reset_assertions"; it does NOT clear the
tracked assertion stack, so on a session holding token 5 the exposed
assertions view still contains that stale token after the reset, even
though the class documents the view as the assertions still in the
solver and reset_assertions as removing all assertions. -/
theorem reset_assertions_keeps_view :
    reset_assertions (.ok ()) oneAsserted =
      .ok () { oneAsserted with last_command := some "reset_assertions" } ∧
    (reset_assertions (.ok ()) oneAsserted).state.assertion_stack = [5] ∧
    (reset_assertions (.ok ()) oneAsserted).state.assertion_stack ≠
      [] := by
  decide

end IncrementalTrackingSolver

/-- C7: constructing a Solver builds an Options record whose
generate_models defaults to the boolean True and whose unsat_cores_mode
defaults to None; exactly the two whitelisted keys are read from the
user mapping (the result is fully determined by their lookups), and any
other key is ignored without raising — the construction is a total
function of the mapping. -/
theorem options_whitelist {Env L : Type} (env : Env) (lg : L)
    (uo : List (String × OptVal)) :
    (Solver.mkState env lg none).options = ({} : SolverOptions) ∧
    ({} : SolverOptions).generate_models = .boolV true ∧
    ({} : SolverOptions).unsat_cores_mode = .noneV ∧
    (Solver.mkState env lg (some uo)).options.generate_models =
      ((uo.lookup "generate_models").getD (.boolV true)) ∧
    (Solver.mkState env lg (some uo)).options.unsat_cores_mode =
      ((uo.lookup "unsat_cores_mode").getD .noneV) := by
  refine ⟨rfl, rfl, rfl, ?_, ?_⟩ <;>
  · simp only [Solver.mkState, get_default_options]
    cases h1 : uo.lookup "generate_models" <;>
      cases h2 : uo.lookup "unsat_cores_mode" <;>
        simp [h1, h2]

/-- C8: constructing a Solver (or an IncrementalTrackingSolver, whose
constructor delegates to it) with an absent logic fails with the
missing-logic error (ValueError in the source; the spec's taxonomy names
it InvalidConfiguration), and no session state is established: the
constructor returns only the error. -/
theorem init_requires_logic {Env L tau : Type} (env : Env)
    (uo : Option (List (String × OptVal))) :
    Solver.init env (none : Option L) uo = .error .valueError ∧
    IncrementalTrackingSolver.init env (none : Option L) uo =
      (.error .valueError : Except PyError (ITSState Env L tau)) :=
  ⟨rfl, rfl⟩

theorem exit_exit {Env L : Type} (s : SolverState Env L) :
    Solver.exit (Solver.exit s) = Solver.exit s := by
  by_cases h : s.destroyed = true <;> simp [Solver.exit, h]

/-- C9: on a live session (destroyed flag not yet set), the first exit()
invokes the backend release primitive _exit exactly once and sets the
one-shot destroyed flag; every further exit(), including the
context-manager scope-exit call, is a no-op (it neither releases again
nor raises — it is a total function returning the unchanged state), and
over any number of exit() calls the release primitive runs at most
once. -/
theorem exit_idempotent {Env L : Type} (s : SolverState Env L)
    (h : s.destroyed = false) :
    (Solver.exit s).exitCalls = s.exitCalls + 1 ∧
    (Solver.exit s).destroyed = true ∧
    (∀ n, Solver.exit^[n] (Solver.exit s) = Solver.exit s) ∧
    Solver.exitContext (Solver.exit s) = Solver.exit s ∧
    (∀ n, (Solver.exit^[n] s).exitCalls ≤ s.exitCalls + 1) := by
  have h1 : Solver.exit s =
      { s with destroyed := true, exitCalls := s.exitCalls + 1 } := by
    simp [Solver.exit, h]
  have hiter : ∀ n (t : SolverState Env L),
      Solver.exit^[n] (Solver.exit t) = Solver.exit t := by
    intro n
    induction n with
    | zero => intro t; rfl
    | succ n ih =>
      intro t
      rw [Function.iterate_succ_apply, exit_exit]
      exact ih t
  refine ⟨by rw [h1], by rw [h1], fun n => hiter n s, exit_exit s, ?_⟩
  intro n
  cases n with
  | zero => simp
  | succ n =>
    rw [Function.iterate_succ_apply, hiter n s, h1]

/-- C9, witness: the idempotence theorem applied to the fresh sample
base session, with five further exit() calls after the first. -/
theorem exit_idempotent_witness :
    (Solver.exit sampleBase).exitCalls = sampleBase.exitCalls + 1 ∧
    Solver.exit^[5] (Solver.exit sampleBase) = Solver.exit sampleBase :=
  ⟨(exit_idempotent sampleBase rfl).1,
   (exit_idempotent sampleBase rfl).2.2.1 5⟩

end PySMT
